import Mathlib

/-!
Verification development for the m-agent-twin repository: a shallow
embedding of the thread store (`thread_store/thread_store.py`), the tool
dispatch machinery, the run poller, and the request orchestrator of
`m-agent-twin.py`, together with theorems settling the spec's claims.

Conventions of the embedding:
* Python exceptions are modelled with `Except Err`; a value of type
  `Except Err a` is a computation that either returns normally (`.ok`)
  or raises (`.error`).
* `print` side effects are modelled as an accumulated `List String` of
  printed lines, returned alongside the value.
* Remote API calls (OpenAI client) are oracles supplied through an
  environment record: each call site is a field holding the outcome the
  remote service would produce.
-/

set_option autoImplicit false

namespace MAgentTwin

/-- A raised Python exception, carrying its message (`str(e)`). -/
inductive Err where
  | exc (msg : String)
  deriving DecidableEq, Repr

/-- `str(e)` for a raised exception. -/
def errMsg : Err → String
  | .exc m => m

namespace ThreadStore

/-- A lookup key as passed to the thread store: in the program it is the
integer `111`, but any string-convertible value is accepted. -/
inductive Key where
  | int (n : Int)
  | str (s : String)
  deriving DecidableEq, Repr

/-- `str(lookup_id)`: the canonical string form used as the shelf key. -/
def pyStr : Key → String
  | .int n => toString n
  | .str s => s

/-- The shelve database `threads_db`, observed as a map from string keys
to thread ids. -/
def ThreadsDb := String → Option String

/-- A database in which nothing has been stored yet. -/
def emptyDb : ThreadsDb := fun _ => none

/-- `check_if_thread_exists(lookup_id)`: converts the key to its string
form and reads the shelf, `None` on a miss. -/
def checkIfThreadExists (db : ThreadsDb) (lookupId : Key) : Option String :=
  db (pyStr lookupId)

/-- `store_thread(lookup_id, thread_id)`: converts the key to its string
form and assigns into the shelf (an upsert). -/
def storeThread (db : ThreadsDb) (lookupId : Key) (threadId : String) : ThreadsDb :=
  fun s => if s = pyStr lookupId then some threadId else db s

/-- The database obtained from the empty shelf by a sequence of
`store_thread` calls (later list elements stored first). -/
def applyStores : List (Key × String) → ThreadsDb
  | [] => emptyDb
  | (k, t) :: rest => storeThread (applyStores rest) k t

end ThreadStore

/-! ### Configuration loader (`read_config_file`) -/

/-- A single-quote character (code point 39), used when reconstructing
Python error messages. -/
def singleQuote : String := String.mk [Char.ofNat 39]

/-- `sub` occurs as a contiguous run inside `l`. -/
def subOccurs (sub : List Char) : List Char → Bool
  | [] => sub.isEmpty
  | c :: rest => sub.isPrefixOf (c :: rest) || subOccurs sub rest

/-- `sub` occurs as a substring of `s`. -/
def containsStr (s sub : String) : Bool := subOccurs sub.data s.data

/-- The contents found at the configuration path: the file may be
missing (`FileNotFoundError` from `open`), hold malformed JSON
(`json.JSONDecodeError` from `json.load`), or parse to an object whose
`openai_api_key` and `timezone` entries are each absent or a string. -/
inductive ConfigFile where
  | missing
  | invalidJson
  | parsed (openaiApiKey : Option String) (timezone : Option String)
  deriving DecidableEq, Repr

/-- The dictionary `read_config_file` returns on success. -/
structure ConfigData where
  openaiApiKey : String
  timezone : String
  deriving DecidableEq, Repr

/-- The error raised by `read_config_file`: a `FileNotFoundError` or a
`ValueError`, with its message. -/
inductive ConfigErr where
  | fileNotFound (msg : String)
  | valueError (msg : String)
  deriving DecidableEq, Repr

/-- Python truthiness of `config.get(key)` restricted to
string-or-absent values: `None` (missing key) and `""` are falsy. -/
def pyFalsy : Option String → Bool
  | none => true
  | some s => s = ""

/-- The message of the `ValueError` raised when a required key is
missing: `Required configuration keys ('openai_api_key', 'timezone')
are missing.` -/
def missingKeysMsg : String :=
  "Required configuration keys (" ++ singleQuote ++ "openai_api_key" ++ singleQuote ++
    ", " ++ singleQuote ++ "timezone" ++ singleQuote ++ ") are missing."

/-- `read_config_file(file_path)`: re-raises a missing file as
`FileNotFoundError`, malformed JSON as `ValueError`, checks both
required keys with `config.get` and Python truthiness, and otherwise
returns the two extracted values. -/
def readConfigFile (filePath : String) (f : ConfigFile) : Except ConfigErr ConfigData :=
  match f with
  | .missing =>
      .error (.fileNotFound ("The configuration file " ++ filePath ++ " was not found."))
  | .invalidJson =>
      .error (.valueError ("The file " ++ filePath ++ " is not a valid JSON file."))
  | .parsed o t =>
      if pyFalsy o || pyFalsy t then .error (.valueError missingKeysMsg)
      else .ok ⟨o.getD "", t.getD ""⟩

/-! ### Tool dispatch (`function_dispatch_table`, `process_single_tool_call`) -/

/-- A Python value returned by a dispatch-table handler: either a string
(submitted as-is) or a non-string value carried as its `json.dumps`
form. -/
inductive PyVal where
  | str (s : String)
  | other (dump : String)
  deriving DecidableEq, Repr

/-- A decoded keyword-argument mapping, as produced by `json.loads`. -/
abbrev Args := List (String × PyVal)

/-- A local handler invoked as `func(**arguments)`; it may raise. -/
abbrev Handler := Args → Except Err PyVal

/-- The `arguments` field of a pending tool call: delivered either as a
JSON string (so `json.loads` runs) or as an already decoded mapping. -/
inductive ArgSpec where
  | raw (s : String)
  | parsed (m : Args)
  deriving DecidableEq, Repr

/-- One entry of `required_actions["tool_calls"]`. -/
structure Action where
  id : String
  name : String
  arguments : ArgSpec
  deriving DecidableEq, Repr

/-- The `tool_call` record rebuilt by `process_single_tool_call`. -/
structure ToolCall where
  id : String
  name : String
  arguments : Args
  deriving DecidableEq, Repr

/-- One `{"tool_call_id": ..., "output": ...}` entry. -/
structure ToolOutput where
  toolCallId : String
  output : String
  deriving DecidableEq, Repr

/-- `get_chat_response(user_input, model)`: the body of the `try` block
(the chat-completions call plus the extraction
`completion.choices[0].message["content"]`) is supplied as the oracle
`completion`; the `except` clause turns any raised exception `e` into
the string `"An error occurred: " + str(e)`. The Lean return type
`String` (not `Except`) records that the function itself never
raises. -/
def getChatResponse (completion : Except Err String) : String :=
  match completion with
  | .ok content => content
  | .error e => "An error occurred: " ++ errMsg e

/-- The dispatch-table entry for `get_chat_response`: the oracle gives
the outcome of the underlying completions call for the decoded
arguments. -/
def getChatResponseHandler (oracle : Args → Except Err String) : Handler :=
  fun args => Except.ok (PyVal.str (getChatResponse (oracle args)))

/-- `function_dispatch_table`: the three calendar collaborators are
opaque parameters, `get_chat_response` is the wrapper defined above. -/
def functionDispatchTable (addCalendarEvent listEvents updateOrCancelEvent : Handler)
    (oracle : Args → Except Err String) : List (String × Handler) :=
  [("add_calendar_event", addCalendarEvent),
   ("list_events", listEvents),
   ("update_or_cancel_event", updateOrCancelEvent),
   ("get_chat_response", getChatResponseHandler oracle)]

/-- The string submitted as a call's output: `json.dumps(result)` when
the handler returned a non-string (the `.other` constructor carries
that dumped form), the string itself otherwise. -/
def outputString : PyVal → String
  | .str s => s
  | .other dump => dump

/-- `process_single_tool_call(action)`: decodes the arguments (running
`json.loads` only when they arrive as a string), rebuilds the
`tool_call` record, looks the name up in the dispatch table, and either
invokes the handler — a truthy (nonempty) output string becomes a
`{"tool_call_id", "output"}` entry, a falsy one becomes `None` — or,
with no registered handler, prints `Function ... not found` and leaves
the output `None`. -/
def processSingleToolCall (jsonLoads : String → Except Err Args)
    (table : List (String × Handler)) (action : Action) :
    List String × Except Err (ToolCall × Option ToolOutput) :=
  match (match action.arguments with
         | .raw s => jsonLoads s
         | .parsed m => Except.ok m) with
  | .error e => ([], .error e)
  | .ok args =>
      match table.lookup action.name with
      | some func =>
          match func args with
          | .error e => ([], .error e)
          | .ok result =>
              let output := outputString result
              ([], .ok (⟨action.id, action.name, args⟩,
                if output ≠ "" then some ⟨action.id, output⟩ else none))
      | none =>
          (["Function " ++ action.name ++ " not found"],
            .ok (⟨action.id, action.name, args⟩, none))

/-! ### Interactive loop (`get_user_input`, `main`) -/

/-- Python `str.lower` on one character (ASCII fragment): uppercase
letters shift into lowercase, everything else is unchanged. -/
def pyCharLower (c : Char) : Char :=
  if c.isUpper then Char.ofNat (c.toNat + 32) else c

/-- Python `str.lower` (ASCII fragment), applied character-wise. -/
def pyLower (s : String) : String := String.mk (s.data.map pyCharLower)

/-- `get_user_input()`: reads one raw line from standard input and
lowercases it before returning. -/
def getUserInput (raw : String) : String := pyLower raw

/-- What one iteration of `main`'s loop does with the line it read. -/
inductive LoopAction where
  | exitProgram
  | forward (userInput : String)
  deriving DecidableEq, Repr

/-- One iteration of `main`'s `while True` loop: read and lowercase the
line, terminate on the sentinel `"exit"`, otherwise forward the
lowercased text to `process_user_request` as `user_input`. -/
def mainStep (raw : String) : LoopAction :=
  if getUserInput raw = "exit" then .exitProgram else .forward (getUserInput raw)

/-! ### Run poller (`get_assistant_response` and helpers) -/

/-- One message of the thread's message list, as returned by
`messages.list` (newest first); `text` stands for
`content[0].text.value`. -/
structure Msg where
  role : String
  text : String
  deriving DecidableEq, Repr

/-- `process_completed_run(thread, client)`: walks the fetched message
list and, at the first assistant-authored message, prints
`Assistant: ...` and executes a bare `return` — so the function's value
is `None` in every case (also when no assistant message exists). -/
def processCompletedRun (msgs : List Msg) : List String × Option String :=
  match msgs.find? (fun m => m.role == "assistant") with
  | some m => (["Assistant: " ++ m.text], none)
  | none => ([], none)

/-- `process_tool_calls(required_actions)`: dispatches each pending call
in order, appending the rebuilt `tool_call` record and the per-call
output — including the `None` placeholders — to two lists; an exception
raised while dispatching one call propagates. -/
def processToolCalls (jsonLoads : String → Except Err Args)
    (table : List (String × Handler)) :
    List Action → List String × Except Err (List ToolCall × List (Option ToolOutput))
  | [] => ([], .ok ([], []))
  | action :: rest =>
      match processSingleToolCall jsonLoads table action with
      | (l1, .error e) => (l1, .error e)
      | (l1, .ok (tc, out)) =>
          match processToolCalls jsonLoads table rest with
          | (l2, .error e) => (l1 ++ l2, .error e)
          | (l2, .ok (tcs, outs)) => (l1 ++ l2, .ok (tc :: tcs, out :: outs))

/-- `submit_tool_outputs(thread, run, tools_output, client)`: the list is
posted to the run exactly when it is truthy (nonempty); `none` means no
network call was made, `some l` is the payload posted unchanged. -/
def submitToolOutputs (toolsOutput : List (Option ToolOutput)) :
    Option (List (Option ToolOutput)) :=
  if toolsOutput.isEmpty then none else some toolsOutput

/-- `process_required_action(run_status, thread, run, client)`: decodes
the pending calls, dispatches them (the `print` of the rebuilt
tool-call dictionary is not tracked in the log), and submits the
collected outputs; the value is the submitted payload, if any. -/
def processRequiredAction (jsonLoads : String → Except Err Args)
    (table : List (String × Handler)) (actions : List Action) :
    List String × Except Err (Option (List (Option ToolOutput))) :=
  match processToolCalls jsonLoads table actions with
  | (l, .error e) => (l, .error e)
  | (l, .ok (_tcs, outs)) => (l, .ok (submitToolOutputs outs))

/-- One iteration's worth of remote-run state, as seen by the
`runs.retrieve` poll at the top of `get_assistant_response`'s loop:
the run is completed, pauses for tool calls, reports some other status,
or the retrieve call itself raises. -/
inductive Poll where
  | completed
  | requiresAction (actions : List Action)
  | otherStatus (status : String)
  | raises (e : Err)

/-- What the polling loop does overall: `hang` models a scripted status
sequence that runs out before `completed` (the Python loop would keep
polling forever); `value v` is a normal return with value `v`. -/
inductive Outcome where
  | hang
  | value (v : Option String)
  deriving DecidableEq, Repr

/-- `get_assistant_response(thread, run, client)` over a scripted
sequence of polled statuses: sleeps and retrieves in a loop, returning
`process_completed_run`'s value on `completed`, performing
`process_required_action` and continuing on `requires_action`, and
printing a wait message and continuing on any other status. -/
def getAssistantResponse (jsonLoads : String → Except Err Args)
    (table : List (String × Handler)) (msgs : List Msg) :
    List Poll → List String × Except Err Outcome
  | [] => ([], .ok .hang)
  | p :: rest =>
      match p with
      | .raises e => ([], .error e)
      | .completed =>
          match processCompletedRun msgs with
          | (l, v) => (l, .ok (.value v))
      | .requiresAction actions =>
          match processRequiredAction jsonLoads table actions with
          | (l, .error e) => (l, .error e)
          | (l, .ok _submitted) =>
              match getAssistantResponse jsonLoads table msgs rest with
              | (l2, r) => (l ++ l2, r)
      | .otherStatus _ =>
          match getAssistantResponse jsonLoads table msgs rest with
          | (l2, r) => (["Waiting for the Assistant to process..."] ++ l2, r)

/-! ### Request orchestrator (`process_user_request` and helpers) -/

/-- A remote assistant identity. -/
structure Assistant where
  id : String
  deriving DecidableEq, Repr

/-- A remote conversation thread. -/
structure Thread where
  id : String
  deriving DecidableEq, Repr

/-- A created thread message. -/
structure Message where
  id : String
  deriving DecidableEq, Repr

/-- A started run. -/
structure Run where
  id : String
  deriving DecidableEq, Repr

/-- The `UnboundLocalError` Python raises when a local variable is read
after the assignment to it was skipped by a caught exception. -/
def unboundLocal (varName : String) : Err :=
  Err.exc ("local variable " ++ singleQuote ++ varName ++ singleQuote ++
    " referenced before assignment")

/-- The environment of one `process_user_request` call: each field is
the outcome the corresponding remote call (or thread-store access)
would produce. `checkThread` is the outcome of
`check_if_thread_exists(thread_lookup_id)` — `.ok` of the shelf lookup,
or `.error` when the shelve store cannot be opened — and
`storeThreadOutcome` is likewise the outcome of `store_thread`. -/
structure Env where
  retrieveOrCreateAssistant : Except Err Assistant
  checkThread : Except Err (Option String)
  threadsCreate : Except Err Thread
  storeThreadOutcome : Except Err Unit
  threadsRetrieve : String → Except Err Thread
  messagesCreate : Except Err Message
  runsCreate : Except Err Run
  jsonLoads : String → Except Err Args
  table : List (String × Handler)
  msgs : List Msg
  script : List Poll
  lookupId : ThreadStore.Key

/-- `create_new_thread(lookup_id, client)`: prints the banner, then
creates a remote thread and stores its id; any exception from either
call is caught, printed, and turned into a `None` result. -/
def createNewThread (env : Env) : List String × Option Thread :=
  let banner := "Creating new thread with lookupId " ++ ThreadStore.pyStr env.lookupId
  match env.threadsCreate with
  | .ok t =>
      match env.storeThreadOutcome with
      | .ok _ => ([banner], some t)
      | .error e => ([banner, "Failed to create new thread: " ++ errMsg e], none)
  | .error e => ([banner, "Failed to create new thread: " ++ errMsg e], none)

/-- `retrieve_existing_thread(thread_id, lookup_id, client)`: prints the
banner, then retrieves the thread; an exception is caught, printed, and
turned into a `None` result. -/
def retrieveExistingThread (env : Env) (threadId : String) : List String × Option Thread :=
  let banner := "Retrieving existing thread with lookupId " ++ ThreadStore.pyStr env.lookupId
  match env.threadsRetrieve threadId with
  | .ok t => ([banner], some t)
  | .error e =>
      ([banner, "Failed to retrieve existing thread (" ++ threadId ++ "): " ++ errMsg e], none)

/-- `create_or_retrieve_thread(user_input, lookup_id, client)`: consults
the thread store — this call sits in no local `try`, so a thread-store
exception propagates out of this function — then creates or retrieves
the remote thread. -/
def createOrRetrieveThread (env : Env) : List String × Except Err (Option Thread) :=
  match env.checkThread with
  | .error e => ([], .error e)
  | .ok none =>
      match createNewThread env with
      | (l, t) => (l, .ok t)
  | .ok (some threadId) =>
      match retrieveExistingThread env threadId with
      | (l, t) => (l, .ok t)

/-- `add_message_to_thread(thread_id, user_input, client)`: an exception
from `messages.create` is caught and printed, but the trailing
`return message` then reads the never-assigned local and raises an
`UnboundLocalError`, which propagates to the caller. -/
def addMessageToThread (env : Env) : List String × Except Err Message :=
  match env.messagesCreate with
  | .ok m => ([], .ok m)
  | .error e =>
      (["Failed to add message to thread: " ++ errMsg e], .error (unboundLocal "message"))

/-- The body of `process_user_request`'s outer `try` block, steps 1–5.
Step 1 catches and logs its own exception, leaving `assistant` unbound;
step 4 likewise catches (including the `UnboundLocalError` from reading
`assistant.id`), leaving `run` unbound, after which `if run is None`
raises `UnboundLocalError`. The `if message is None` and `is None`
guards after successful calls can never fire, because the remote calls
return objects, and are elided. -/
def processUserRequestBody (env : Env) : List String × Except Err Outcome :=
  let step1 : List String × Option Assistant :=
    match env.retrieveOrCreateAssistant with
    | .ok a => ([], some a)
    | .error e => (["Error in retrieve_or_create_assistant: " ++ errMsg e], none)
  match step1 with
  | (l1, assistantOpt) =>
      match createOrRetrieveThread env with
      | (l2, .error e) => (l1 ++ l2, .error e)
      | (l2, .ok none) => (l1 ++ l2, .error (Err.exc "Failed to create thread."))
      | (l2, .ok (some _thread)) =>
          match addMessageToThread env with
          | (l3, .error e) => (l1 ++ l2 ++ l3, .error e)
          | (l3, .ok _message) =>
              let step4 : List String × Option Run :=
                match assistantOpt with
                | none =>
                    (["Error in create_run_for_assistant: " ++ errMsg (unboundLocal "assistant")],
                      none)
                | some _a =>
                    match env.runsCreate with
                    | .ok r => ([], some r)
                    | .error e => (["Error in create_run_for_assistant: " ++ errMsg e], none)
              match step4 with
              | (l4, none) => (l1 ++ l2 ++ l3 ++ l4, .error (unboundLocal "run"))
              | (l4, some _run) =>
                  match getAssistantResponse env.jsonLoads env.table env.msgs env.script with
                  | (l5, r) => (l1 ++ l2 ++ l3 ++ l4 ++ l5, r)

/-- `process_user_request(client, user_input, ...)`: runs the five steps
under the outer `try`; any exception reaching it is caught, printed as
`Error in process_user_request: ...`, and converted into a `None`
return value. -/
def processUserRequest (env : Env) : List String × Except Err Outcome :=
  match processUserRequestBody env with
  | (l, .ok o) => (l, .ok o)
  | (l, .error e) =>
      (l ++ ["Error in process_user_request: " ++ errMsg e], .ok (.value none))

/-! ### Concrete fixtures used to evaluate the embedding -/

/-- A calendar-collaborator stub returning a fixed string. -/
def stubHandler (s : String) : Handler := fun _ => Except.ok (PyVal.str s)

/-- A concrete dispatch table: stub calendar collaborators, and a
completions oracle that answers `chat reply`. -/
def tableC : List (String × Handler) :=
  functionDispatchTable (stubHandler "cal-added") (stubHandler "events")
    (stubHandler "updated") (fun _ => Except.ok "chat reply")

/-- A `json.loads` stub decoding every string to the empty mapping. -/
def jsonLoadsC : String → Except Err Args := fun _ => Except.ok []

/-- The scripted status sequence `[in_progress, requires_action,
completed]`, the `requires_action` cycle holding one registered
`get_chat_response` call. -/
def scriptC : List Poll :=
  [Poll.otherStatus "in_progress",
   Poll.requiresAction
     [⟨"call_1", "get_chat_response", ArgSpec.parsed [("user_input", PyVal.str "hi")]⟩],
   Poll.completed]

/-- The fetched message list (newest first): the assistant's final
reply, then the user's request. -/
def msgsC : List Msg :=
  [⟨"assistant", "Here is your schedule."⟩, ⟨"user", "What is my schedule today?"⟩]

/-- An environment in which every remote call succeeds and the run
reaches `completed` after one tool-call round trip. Fields in order:
assistant retrieval, thread-store lookup, thread creation, thread-store
write, thread retrieval, message creation, run creation, `json.loads`,
dispatch table, message list, status script, lookup id. -/
def envAllOk : Env :=
  ⟨Except.ok ⟨"asst_1"⟩, Except.ok none, Except.ok ⟨"thread_1"⟩, Except.ok (),
    fun _ => Except.ok ⟨"thread_1"⟩, Except.ok ⟨"msg_1"⟩, Except.ok ⟨"run_1"⟩,
    jsonLoadsC, tableC, msgsC, scriptC, ThreadStore.Key.int 111⟩

/-- Like `envAllOk`, but the thread-store lookup raises: the shelve
store could not be opened. -/
def envLookupFail : Env :=
  ⟨Except.ok ⟨"asst_1"⟩, Except.error (Err.exc "could not open threads_db"),
    Except.ok ⟨"thread_1"⟩, Except.ok (), fun _ => Except.ok ⟨"thread_1"⟩,
    Except.ok ⟨"msg_1"⟩, Except.ok ⟨"run_1"⟩, jsonLoadsC, tableC, msgsC, scriptC,
    ThreadStore.Key.int 111⟩

/-- Like `envAllOk`, but the lookup misses and the thread-store write
raises: the shelve store could not be opened for writing. -/
def envStoreFail : Env :=
  ⟨Except.ok ⟨"asst_1"⟩, Except.ok none, Except.ok ⟨"thread_1"⟩,
    Except.error (Err.exc "could not open threads_db"),
    fun _ => Except.ok ⟨"thread_1"⟩, Except.ok ⟨"msg_1"⟩, Except.ok ⟨"run_1"⟩,
    jsonLoadsC, tableC, msgsC, scriptC, ThreadStore.Key.int 111⟩

end MAgentTwin

namespace MAgentTwin

open ThreadStore

/-- Claim C5: a key never stored before looks up to absent, and after
`store(k, t)` a lookup of any key with the same canonical string form
(for example integer `111` against string `"111"`) returns exactly `t`:
keys are normalized with `str()` before use. -/
theorem c5_lookup_store (ops : List (Key × String)) (k kAlias : Key) (t : String)
    (hfresh : ∀ p ∈ ops, pyStr p.1 ≠ pyStr k)
    (halias : pyStr kAlias = pyStr k) :
    checkIfThreadExists (applyStores ops) k = none ∧
      checkIfThreadExists (storeThread (applyStores ops) k t) kAlias = some t := by
  constructor
  · induction ops with
    | nil => rfl
    | cons p rest ih =>
      have hne : pyStr p.1 ≠ pyStr k := hfresh p (List.mem_cons_self p rest)
      have hrest : ∀ q ∈ rest, pyStr q.1 ≠ pyStr k := fun q hq =>
        hfresh q (List.mem_cons_of_mem p hq)
      obtain ⟨k1, t1⟩ := p
      simp only [applyStores, checkIfThreadExists, storeThread] at *
      rw [if_neg (fun h => hne h.symm)]
      exact ih hrest
  · simp [checkIfThreadExists, storeThread, halias]

/-- Claim C5 witness: with `222` already stored, the fresh integer key
`111` misses; storing under `111` then looking up the string `"111"`
returns the stored thread id. -/
theorem c5_witness :
    checkIfThreadExists (applyStores [(Key.str "222", "t0")]) (Key.int 111) = none ∧
      checkIfThreadExists
        (storeThread (applyStores [(Key.str "222", "t0")]) (Key.int 111) "thread_abc")
        (Key.str "111") = some "thread_abc" :=
  c5_lookup_store [(Key.str "222", "t0")] (Key.int 111) (Key.str "111") "thread_abc"
    (by decide) (by decide)

/-- Claim C6: storing twice under the same key with distinct thread ids
leaves the lookup returning the second id; the first store was visible
before being silently replaced, and no error is raised (the model is a
total function). -/
theorem c6_last_write_wins (db : ThreadsDb) (k : Key) (t1 t2 : String)
    (_hne : t1 ≠ t2) :
    checkIfThreadExists (storeThread (storeThread db k t1) k t2) k = some t2 ∧
      checkIfThreadExists (storeThread db k t1) k = some t1 := by
  refine ⟨?_, ?_⟩ <;> simp [checkIfThreadExists, storeThread]

/-- Claim C6 witness: storing `"thread_a"` then `"thread_b"` under key
`111` leaves the lookup returning `"thread_b"`. -/
theorem c6_witness :
    checkIfThreadExists
        (storeThread (storeThread emptyDb (Key.int 111) "thread_a") (Key.int 111) "thread_b")
        (Key.int 111) = some "thread_b" ∧
      checkIfThreadExists (storeThread emptyDb (Key.int 111) "thread_a") (Key.int 111) =
        some "thread_a" :=
  c6_last_write_wins emptyDb (Key.int 111) "thread_a" "thread_b" (by decide)

/-- Claim C7: dispatching a tool call whose name has no entry in
`function_dispatch_table`, with an already decoded argument mapping,
raises nothing (the result is `.ok`), prints `Function ... not found`,
and yields an absent output. -/
theorem c7_unregistered_dispatch
    (addCalendarEvent listEvents updateOrCancelEvent : Handler)
    (oracle : Args → Except Err String)
    (jsonLoads : String → Except Err Args) (action : Action) (m : Args)
    (hargs : action.arguments = ArgSpec.parsed m)
    (hmiss : (functionDispatchTable addCalendarEvent listEvents
        updateOrCancelEvent oracle).lookup action.name = none) :
    processSingleToolCall jsonLoads
        (functionDispatchTable addCalendarEvent listEvents updateOrCancelEvent oracle)
        action =
      (["Function " ++ action.name ++ " not found"],
        Except.ok (⟨action.id, action.name, m⟩, none)) := by
  simp [processSingleToolCall, hargs, hmiss]

/-- Claim C7 witness: the name `frobnicate` is not registered, so the
dispatch of `call_9` logs the miss and produces no output. -/
theorem c7_witness :
    processSingleToolCall (fun _ => Except.ok [])
        (functionDispatchTable (fun _ => Except.ok (PyVal.str "a"))
          (fun _ => Except.ok (PyVal.str "b")) (fun _ => Except.ok (PyVal.str "c"))
          (fun _ => Except.ok "d"))
        ⟨"call_9", "frobnicate", ArgSpec.parsed []⟩ =
      (["Function frobnicate not found"],
        Except.ok (⟨"call_9", "frobnicate", []⟩, none)) :=
  c7_unregistered_dispatch (fun _ => Except.ok (PyVal.str "a"))
    (fun _ => Except.ok (PyVal.str "b")) (fun _ => Except.ok (PyVal.str "c"))
    (fun _ => Except.ok "d") (fun _ => Except.ok [])
    ⟨"call_9", "frobnicate", ArgSpec.parsed []⟩ [] rfl rfl

/-- Claim C8: a well-formed configuration object lacking `timezone` (or
lacking `openai_api_key`) makes `read_config_file` raise the
`ValueError` whose message names both required keys; a missing file
raises a `FileNotFoundError` saying the file was not found, and
malformed JSON raises a `ValueError` saying the file is not valid
JSON. -/
theorem c8_config_errors (filePath : String) (o t : Option String) :
    readConfigFile filePath ConfigFile.missing =
        .error (.fileNotFound ("The configuration file " ++ filePath ++ " was not found.")) ∧
      readConfigFile filePath ConfigFile.invalidJson =
        .error (.valueError ("The file " ++ filePath ++ " is not a valid JSON file.")) ∧
      (t = none →
        readConfigFile filePath (ConfigFile.parsed o t) =
          .error (.valueError missingKeysMsg)) ∧
      (o = none →
        readConfigFile filePath (ConfigFile.parsed o t) =
          .error (.valueError missingKeysMsg)) ∧
      containsStr missingKeysMsg "openai_api_key" = true ∧
      containsStr missingKeysMsg "timezone" = true := by
  refine ⟨rfl, rfl, ?_, ?_, by decide, by decide⟩
  · intro h; subst h; simp [readConfigFile, pyFalsy]
  · intro h; subst h; simp [readConfigFile, pyFalsy]

/-- Claim C8 witness: at the concrete path `config.json`, an object
with only `openai_api_key` set triggers the missing-keys `ValueError`,
whose message names both required keys. -/
theorem c8_witness :
    readConfigFile "config.json" (ConfigFile.parsed (some "sk-123") none) =
        .error (.valueError missingKeysMsg) ∧
      containsStr missingKeysMsg "openai_api_key" = true ∧
      containsStr missingKeysMsg "timezone" = true :=
  ⟨(c8_config_errors "config.json" (some "sk-123") none).2.2.1 rfl,
    (c8_config_errors "config.json" (some "sk-123") none).2.2.2.2.1,
    (c8_config_errors "config.json" (some "sk-123") none).2.2.2.2.2⟩

/-- Every character produced by the lowercasing step fails `isUpper`. -/
theorem pyCharLower_not_upper (c : Char) : (pyCharLower c).isUpper = false := by
  unfold pyCharLower
  by_cases h : c.isUpper
  · rw [if_pos h]
    simp only [Char.isUpper, Bool.and_eq_true, decide_eq_true_eq] at h
    obtain ⟨h1, h2⟩ := h
    have hlb : 65 ≤ c.toNat := h1
    have hub : c.toNat ≤ 90 := h2
    generalize c.toNat = n at hlb hub
    interval_cases n <;> decide
  · rw [if_neg h]
    exact Bool.eq_false_iff.mpr h

/-- A lowercased string contains no uppercase character. -/
theorem pyLower_no_upper (s : String) : ∀ c ∈ (pyLower s).data, c.isUpper = false := by
  intro c hc
  simp only [pyLower] at hc
  obtain ⟨a, _, rfl⟩ := List.mem_map.mp hc
  exact pyCharLower_not_upper a

/-- Claim C9: every line read by the interactive loop is lowercased
before the sentinel comparison and before being forwarded: a forwarded
text is exactly the lowercased input and contains no uppercase
character, two raw lines with the same lowercasing are processed
identically, and the loop exits exactly when the lowercased line is
`"exit"`. -/
theorem c9_lowercase_input (raw : String) :
    (∀ s, mainStep raw = LoopAction.forward s →
        s = pyLower raw ∧ ∀ c ∈ s.data, c.isUpper = false) ∧
      (∀ raw2, pyLower raw = pyLower raw2 → mainStep raw = mainStep raw2) ∧
      (mainStep raw = LoopAction.exitProgram ↔ pyLower raw = "exit") := by
  refine ⟨?_, ?_, ?_⟩
  · intro s hs
    by_cases h : getUserInput raw = "exit"
    · rw [mainStep, if_pos h] at hs
      exact absurd hs (by simp)
    · rw [mainStep, if_neg h] at hs
      have hs' : s = getUserInput raw := (LoopAction.forward.injEq _ _).mp hs.symm
      subst hs'
      exact ⟨rfl, pyLower_no_upper raw⟩
  · intro raw2 h2
    simp only [mainStep, getUserInput]
    rw [h2]
  · unfold mainStep getUserInput
    by_cases h : pyLower raw = "exit"
    · simp [h]
    · simp [h]

/-- Claim C9 witness: the raw line `AbC` is forwarded as `abc`, which
has no uppercase character, and the differently cased line `aBc` takes
the loop to the same action. -/
theorem c9_witness :
    ("abc" = pyLower "AbC" ∧ ∀ c ∈ ("abc" : String).data, c.isUpper = false) ∧
      mainStep "AbC" = mainStep "aBc" :=
  ⟨(c9_lowercase_input "AbC").1 "abc" (by decide),
    (c9_lowercase_input "AbC").2.1 "aBc" (by decide)⟩

/-- Claim C10: `get_chat_response` never raises — its embedding returns
a plain `String` — and when the underlying completions call raises an
exception `e` it returns `"An error occurred: " + str(e)`, while a
successful call returns the extracted content; consequently the
dispatch-table entry for `get_chat_response` always yields a `.ok`
string result. -/
theorem c10_chat_response_total (completion : Except Err String) :
    (∀ e, completion = Except.error e →
        getChatResponse completion = "An error occurred: " ++ errMsg e) ∧
      (∀ s, completion = Except.ok s → getChatResponse completion = s) ∧
      (∀ (oracle : Args → Except Err String) (args : Args),
        getChatResponseHandler oracle args =
          Except.ok (PyVal.str (getChatResponse (oracle args)))) := by
  refine ⟨?_, ?_, fun _ _ => rfl⟩
  · intro e he; subst he; rfl
  · intro s hs; subst hs; rfl

/-- Claim C10 witness: with the completions call raising `boom`, the
function returns the wrapped error string; with it succeeding, the
content comes back unchanged. -/
theorem c10_witness :
    getChatResponse (Except.error (Err.exc "boom")) = "An error occurred: boom" ∧
      getChatResponse (Except.ok "hello") = "hello" :=
  ⟨(c10_chat_response_total (Except.error (Err.exc "boom"))).1 (Err.exc "boom") rfl,
    (c10_chat_response_total (Except.ok "hello")).2.1 "hello" rfl⟩

/-- What `process_single_tool_call` contributes as the per-call output
when it returns normally: an unregistered name yields `None`; any
present entry carries the call's id and a truthy output; a registered
handler returning a nonempty string yields exactly that entry. -/
theorem processSingleToolCall_output_spec (jsonLoads : String → Except Err Args)
    (table : List (String × Handler)) (action : Action)
    (l1 : List String) (tc : ToolCall) (out : Option ToolOutput)
    (hp : processSingleToolCall jsonLoads table action = (l1, Except.ok (tc, out))) :
    (table.lookup action.name = none → out = none) ∧
      (∀ t, out = some t → t.toolCallId = action.id ∧ t.output ≠ "") ∧
      (∀ f m s, table.lookup action.name = some f → action.arguments = ArgSpec.parsed m →
        f m = Except.ok (PyVal.str s) → s ≠ "" → out = some ⟨action.id, s⟩) := by
  rw [processSingleToolCall] at hp
  split at hp
  · exact absurd hp (by simp)
  · rename_i args hargs
    split at hp
    · rename_i func hfunc
      split at hp
      · exact absurd hp (by simp)
      · rename_i result hres
        simp only [Prod.mk.injEq, Except.ok.injEq] at hp
        obtain ⟨-, -, hout⟩ := hp
        by_cases hne : outputString result = ""
        · rw [if_neg (by simp [hne])] at hout
          refine ⟨fun _ => hout.symm, ?_, ?_⟩
          · intro t ht
            rw [← hout] at ht
            cases ht
          · intro f' m s hf' hA' hfm hs
            rw [hfunc] at hf'
            obtain rfl : func = f' := Option.some.inj hf'
            rw [hA'] at hargs
            simp at hargs
            subst hargs
            rw [hres] at hfm
            obtain rfl : result = PyVal.str s := Except.ok.inj hfm
            exact absurd hne hs
        · rw [if_pos (by simp [hne])] at hout
          refine ⟨?_, ?_, ?_⟩
          · intro h
            rw [hfunc] at h
            cases h
          · intro t ht
            rw [← hout] at ht
            obtain rfl : (⟨action.id, outputString result⟩ : ToolOutput) = t :=
              Option.some.inj ht
            exact ⟨rfl, hne⟩
          · intro f' m s hf' hA' hfm hs
            rw [hfunc] at hf'
            obtain rfl : func = f' := Option.some.inj hf'
            rw [hA'] at hargs
            simp at hargs
            subst hargs
            rw [hres] at hfm
            obtain rfl : result = PyVal.str s := Except.ok.inj hfm
            exact hout.symm
    · rename_i hnone
      simp only [Prod.mk.injEq, Except.ok.injEq] at hp
      obtain ⟨-, -, hout⟩ := hp
      refine ⟨fun _ => hout.symm, ?_, ?_⟩
      · intro t ht
        rw [← hout] at ht
        cases ht
      · intro f m s hf _ _ _
        rw [hnone] at hf
        cases hf

/-- Claim C2 counterexample: one pending call with the unregistered
name `unknown_function` contributes a `None` entry to `tools_output` —
the list has length one, not zero — and that list, still containing the
absent placeholder, is what gets posted (`submit_tool_outputs` submits
it because a nonempty list is truthy), whereas the claim says such a
call contributes no entry and only non-absent outputs are submitted. -/
theorem c2_counterexample :
    processToolCalls jsonLoadsC tableC [⟨"call_1", "unknown_function", ArgSpec.parsed []⟩] =
        (["Function unknown_function not found"],
          Except.ok ([⟨"call_1", "unknown_function", []⟩], [none])) ∧
      List.filterMap id [(none : Option ToolOutput)] = [] ∧
      submitToolOutputs [(none : Option ToolOutput)] = some [none] := by
  exact ⟨rfl, rfl, rfl⟩

/-- Claim C2 as amended: the list submitted back to the run has exactly
one entry per pending tool call, in order; a call whose name has no
registered handler contributes an absent (`None`) placeholder entry —
it is not filtered out — every present entry carries its call's id and
a truthy (nonempty) output, and a registered handler returning a
nonempty string contributes exactly its `{tool_call_id, output}` entry;
the whole list is posted whenever it is nonempty. -/
theorem c2_submitted_outputs (jsonLoads : String → Except Err Args)
    (table : List (String × Handler)) (actions : List Action)
    (l : List String) (tcs : List ToolCall) (outs : List (Option ToolOutput))
    (h : processToolCalls jsonLoads table actions = (l, Except.ok (tcs, outs))) :
    outs.length = actions.length ∧
      submitToolOutputs outs = (if outs.isEmpty then none else some outs) ∧
      List.Forall₂ (fun (a : Action) (o : Option ToolOutput) =>
        (table.lookup a.name = none → o = none) ∧
          (∀ t, o = some t → t.toolCallId = a.id ∧ t.output ≠ "") ∧
          (∀ f m s, table.lookup a.name = some f → a.arguments = ArgSpec.parsed m →
            f m = Except.ok (PyVal.str s) → s ≠ "" → o = some ⟨a.id, s⟩))
        actions outs := by
  have main : ∀ (as : List Action) (l0 : List String) (tcs0 : List ToolCall)
      (outs0 : List (Option ToolOutput)),
      processToolCalls jsonLoads table as = (l0, Except.ok (tcs0, outs0)) →
      outs0.length = as.length ∧
        List.Forall₂ (fun (a : Action) (o : Option ToolOutput) =>
          (table.lookup a.name = none → o = none) ∧
            (∀ t, o = some t → t.toolCallId = a.id ∧ t.output ≠ "") ∧
            (∀ f m s, table.lookup a.name = some f → a.arguments = ArgSpec.parsed m →
              f m = Except.ok (PyVal.str s) → s ≠ "" → o = some ⟨a.id, s⟩))
          as outs0 := by
    intro as
    induction as with
    | nil =>
        intro l0 tcs0 outs0 h0
        rw [processToolCalls] at h0
        simp only [Prod.mk.injEq, Except.ok.injEq] at h0
        obtain ⟨-, -, houts⟩ := h0
        rw [← houts]
        exact ⟨rfl, List.Forall₂.nil⟩
    | cons action rest ih =>
        intro l0 tcs0 outs0 h0
        simp only [processToolCalls] at h0
        rcases hp : processSingleToolCall jsonLoads table action with ⟨l1, r1⟩
        rcases r1 with e | ⟨tc, out⟩
        · rw [hp] at h0
          simp at h0
        · rcases hr : processToolCalls jsonLoads table rest with ⟨l2, r2⟩
          rcases r2 with e | ⟨tcs2, outs2⟩
          · rw [hp, hr] at h0
            simp at h0
          · rw [hp, hr] at h0
            simp only [Prod.mk.injEq, Except.ok.injEq] at h0
            obtain ⟨-, -, houts⟩ := h0
            rw [← houts]
            obtain ⟨ihl, ihf⟩ := ih l2 tcs2 outs2 hr
            exact ⟨by simp [ihl], List.Forall₂.cons
              (processSingleToolCall_output_spec jsonLoads table action l1 tc out hp) ihf⟩
  obtain ⟨hlen, hfa⟩ := main actions l tcs outs h
  exact ⟨hlen, rfl, hfa⟩

/-- Claim C2 witness (amended form): a cycle with one unregistered call
and one registered `get_chat_response` call yields a two-entry output
list — the placeholder and the chat entry — that is posted whole. -/
theorem c2_witness :
    ([(none : Option ToolOutput), some ⟨"call_2", "chat reply"⟩]).length =
        ([⟨"call_1", "unknown_function", ArgSpec.parsed []⟩,
          ⟨"call_2", "get_chat_response", ArgSpec.parsed []⟩] : List Action).length ∧
      submitToolOutputs [(none : Option ToolOutput), some ⟨"call_2", "chat reply"⟩] =
        some [(none : Option ToolOutput), some ⟨"call_2", "chat reply"⟩] := by
  have h := c2_submitted_outputs jsonLoadsC tableC
    [⟨"call_1", "unknown_function", ArgSpec.parsed []⟩,
      ⟨"call_2", "get_chat_response", ArgSpec.parsed []⟩]
    (["Function unknown_function not found"])
    ([⟨"call_1", "unknown_function", []⟩, ⟨"call_2", "get_chat_response", []⟩])
    ([none, some ⟨"call_2", "chat reply"⟩]) rfl
  exact ⟨h.1, h.2.1.trans (by decide)⟩

/-- Claim C3 counterexample: with the thread-store lookup raising (the
shelve store cannot be opened), `process_user_request` still returns
normally — the error is caught by its outer handler, logged, and turned
into a `None` return; nothing propagates, so the process does not
abort. -/
theorem c3_counterexample :
    (processUserRequest envLookupFail).2 = Except.ok (Outcome.value none) ∧
      (∀ e, (processUserRequest envLookupFail).2 ≠ Except.error e) ∧
      "Error in process_user_request: could not open threads_db" ∈
        (processUserRequest envLookupFail).1 := by
  have h1 : (processUserRequest envLookupFail).2 = Except.ok (Outcome.value none) := rfl
  refine ⟨h1, ?_, by decide⟩
  intro e h
  rw [h1] at h
  cases h

/-- Claim C3 as amended: a thread-store I/O failure during lookup is
caught by `process_user_request`'s outer handler, and one during store
is caught by `create_new_thread`'s handler (the orchestrator then
raises and catches `Failed to create thread.`); either way the request
fails ordinarily — logged, `None` returned — and nothing aborts the
process. -/
theorem c3_thread_store_error_caught (env : Env) :
    (∀ e, env.checkThread = Except.error e →
        (processUserRequest env).2 = Except.ok (Outcome.value none) ∧
          ("Error in process_user_request: " ++ errMsg e) ∈ (processUserRequest env).1) ∧
      (∀ e t, env.checkThread = Except.ok none → env.threadsCreate = Except.ok t →
        env.storeThreadOutcome = Except.error e →
        (processUserRequest env).2 = Except.ok (Outcome.value none) ∧
          ("Failed to create new thread: " ++ errMsg e) ∈ (processUserRequest env).1 ∧
          ("Error in process_user_request: " ++ errMsg (Err.exc "Failed to create thread.")) ∈
            (processUserRequest env).1) := by
  constructor
  · intro e hchk
    rcases ha : env.retrieveOrCreateAssistant with e1 | a <;>
      simp [processUserRequest, processUserRequestBody, createOrRetrieveThread, hchk, ha]
  · intro e t hchk hcr hst
    rcases ha : env.retrieveOrCreateAssistant with e1 | a <;>
      simp [processUserRequest, processUserRequestBody, createOrRetrieveThread,
        createNewThread, hchk, hcr, hst, ha]

/-- Claim C3 witness (amended form): a concrete lookup-side failure and
a concrete store-side failure are both swallowed, each leaving a `None`
return and a logged error. -/
theorem c3_witness :
    ((processUserRequest envLookupFail).2 = Except.ok (Outcome.value none) ∧
        ("Error in process_user_request: " ++ errMsg (Err.exc "could not open threads_db")) ∈
          (processUserRequest envLookupFail).1) ∧
      ((processUserRequest envStoreFail).2 = Except.ok (Outcome.value none) ∧
        ("Failed to create new thread: " ++ errMsg (Err.exc "could not open threads_db")) ∈
          (processUserRequest envStoreFail).1 ∧
        ("Error in process_user_request: " ++ errMsg (Err.exc "Failed to create thread.")) ∈
          (processUserRequest envStoreFail).1) :=
  ⟨(c3_thread_store_error_caught envLookupFail).1 (Err.exc "could not open threads_db") rfl,
    (c3_thread_store_error_caught envStoreFail).2 (Err.exc "could not open threads_db")
      ⟨"thread_1"⟩ rfl rfl rfl⟩

/-- Claim C4: `process_user_request` never lets an exception escape —
its result is never `.error` for any environment — and whenever its
body (any of the five steps) raises, the exception is logged as
`Error in process_user_request: ...` and the call returns `None`. -/
theorem c4_no_exception_propagates (env : Env) :
    (∀ e, (processUserRequest env).2 ≠ Except.error e) ∧
      (∀ e, (processUserRequestBody env).2 = Except.error e →
        (processUserRequest env).2 = Except.ok (Outcome.value none) ∧
          ("Error in process_user_request: " ++ errMsg e) ∈ (processUserRequest env).1) := by
  rcases h : processUserRequestBody env with ⟨l, r⟩
  rcases r with e0 | o
  · constructor
    · intro e
      simp [processUserRequest, h]
    · intro e he
      obtain rfl : e0 = e := Except.error.inj he
      simp [processUserRequest, h]
  · constructor
    · intro e
      simp [processUserRequest, h]
    · intro e he
      exact absurd he (by simp)

/-- Claim C4 witness: with the thread-store lookup raising `could not
open threads_db`, the body raises, and `process_user_request` catches
it, logs it, and returns `None`. -/
theorem c4_witness :
    (processUserRequest envLookupFail).2 = Except.ok (Outcome.value none) ∧
      ("Error in process_user_request: " ++ errMsg (Err.exc "could not open threads_db")) ∈
        (processUserRequest envLookupFail).1 :=
  (c4_no_exception_propagates envLookupFail).2 (Err.exc "could not open threads_db") rfl

/-- Claim C1 (code defect witness): on the scripted sequence
`[in_progress, requires_action, completed]` with a registered tool
call and an assistant message `Here is your schedule.` in the thread,
`process_completed_run` prints the text but returns `None`, so
`get_assistant_response` — and with it `process_user_request` — yields
`None`, never the assistant's text, contradicting both the claim and
the functions' own docstrings. -/
theorem c1_completed_run_returns_none :
    processCompletedRun msgsC = (["Assistant: Here is your schedule."], none) ∧
      getAssistantResponse jsonLoadsC tableC msgsC scriptC =
        (["Waiting for the Assistant to process...", "Assistant: Here is your schedule."],
          Except.ok (Outcome.value none)) ∧
      (processUserRequest envAllOk).2 = Except.ok (Outcome.value none) ∧
      (∀ s, (processUserRequest envAllOk).2 ≠ Except.ok (Outcome.value (some s))) := by
  have h0 : (processUserRequest envAllOk).2 = Except.ok (Outcome.value none) := rfl
  refine ⟨rfl, rfl, h0, ?_⟩
  intro s h
  rw [h0] at h
  exact Option.noConfusion (Outcome.value.inj (Except.ok.inj h))

end MAgentTwin
